import Mathlib

/-!
# hid-lib: the UHID transport driver

A shallow embedding of `src/src/uhid.cpp` (class `hiddev::UhidDriver`) and of the
enumeration `hiddev::ReportType` of `src/src/core.h`.

* The driver object is its file descriptor `fd`.  A ghost field `log` records, in
  order, every call the driver makes on its device and every system call it makes
  on the kernel channel, so that "calls `setReport` exactly once" or "does not
  touch the channel" can be stated.
* The device (`hiddev::HidDevice`, a class with virtual methods) and the kernel are
  an environment `Env`: each answer is a function of the history of calls so far,
  which covers every deterministic stateful device and kernel.
* Bytes and machine integers are natural numbers; a store into a 16-bit field is
  written `% 65536`.
* `memcpy` into a fixed-size array of a record is checked against the capacity of
  the array: a copy that does not fit has no defined result (`Fault.bufferOverrun`).
* The record layouts and constants of `linux/uhid.h` and `errno.h` belong to the
  kernel interface, not to the repository; they are transcribed below.
* The diagnostics printed through `LOG` have no effect on the driver and are left
  out, and so are the constructor and the destructor, which only call `open` and
  `close`.  A device method that calls back into the driver is outside the model.
-/

namespace hiddev

/-- The enumeration `hiddev::ReportType` of `core.h`. -/
inductive ReportType where
  | Invalid
  | Input
  | Output
  | Feature
  deriving DecidableEq, Repr

/-- Capacity of the `data` array of the report records (`linux/uhid.h`). -/
def UHID_DATA_MAX : Nat := 4096

/-- Capacity of the `rd_data` array of the creation record (`linux/hid.h`). -/
def HID_MAX_DESCRIPTOR_SIZE : Nat := 4096

/-- Wire report-type code, `enum uhid_report_type`. -/
def UHID_FEATURE_REPORT : Nat := 0

/-- Wire report-type code, `enum uhid_report_type`. -/
def UHID_OUTPUT_REPORT : Nat := 1

/-- Wire report-type code, `enum uhid_report_type`. -/
def UHID_INPUT_REPORT : Nat := 2

/-- The error number `EIO` of `errno.h`. -/
def EIO : Nat := 5

/-- The record `struct uhid_create2_req`.  `rd_data` holds the first `rd_size`
bytes of the array, the ones the driver stores. -/
structure uhid_create2_req where
  name : String
  phys : String
  uniq : String
  rd_size : Nat
  bus : Nat
  vendor : Nat
  product : Nat
  version : Nat
  country : Nat
  rd_data : List Nat
  deriving DecidableEq, Repr

/-- The tagged union `struct uhid_event`: one constructor for each event kind the
driver reads or writes, `other` for every remaining value of the `type` field.
In a record the driver writes, `data` lists the bytes the driver stored, which
are the first `size` bytes of the array.  In a record the driver reads, `data`
is the content of the array.  `uhid_set_report_reply_req` (`id`, `err`) is the
initial segment of `uhid_get_report_reply_req` (`id`, `err`, `size`, `data`),
both packed, so the store `ev.u.get_report_reply.err = ...` of the SET_REPORT
branch lands in the `err` field of the set-report reply. -/
inductive uhid_event where
  | UHID_START
  | UHID_STOP
  | UHID_OPEN
  | UHID_CLOSE
  | UHID_OUTPUT (data : List Nat) (size : Nat) (rtype : Nat)
  | UHID_GET_REPORT (id : Nat) (rnum : Nat) (rtype : Nat)
  | UHID_GET_REPORT_REPLY (id : Nat) (err : Nat) (size : Nat) (data : List Nat)
  | UHID_CREATE2 (req : uhid_create2_req)
  | UHID_INPUT2 (size : Nat) (data : List Nat)
  | UHID_SET_REPORT (id : Nat) (rnum : Nat) (rtype : Nat) (size : Nat) (data : List Nat)
  | UHID_SET_REPORT_REPLY (id : Nat) (err : Nat)
  | other (type : Nat)
  deriving DecidableEq, Repr

/-- Ways in which an execution leaves defined behaviour. -/
inductive Fault where
  | bufferOverrun
  | missingReturn
  deriving DecidableEq, Repr

/-- What a `bool` member function does: it returns a value, or the execution has
left defined behaviour. -/
inductive Outcome where
  | ret (b : Bool)
  | undef (f : Fault)
  deriving DecidableEq, Repr

/-- One observable step of the driver: a call of a device method or a system call
on the kernel channel. -/
inductive Call where
  | getDescriptor
  | start
  | stop
  | isNumberedReport (reportType : ReportType)
  | getReport (reportType : ReportType) (reportNum : Nat)
  | setReport (reportType : ReportType) (reportNum : Nat) (reportBuffer : List Nat)
      (reportLength : Nat)
  | sysOpen (result : Int)
  | sysClose (fd : Int)
  | sysRead (fd : Int) (ev : Option uhid_event)
  | sysWrite (fd : Int) (ev : uhid_event) (full : Bool)
  deriving DecidableEq, Repr

/-- Is the step a call of a device method? -/
def Call.isDevice : Call → Bool
  | .getDescriptor => true
  | .start => true
  | .stop => true
  | .isNumberedReport _ => true
  | .getReport _ _ => true
  | .setReport _ _ _ _ => true
  | _ => false

/-- Is the step a system call on the kernel channel? -/
def Call.isChannel : Call → Bool
  | .sysOpen _ => true
  | .sysClose _ => true
  | .sysRead _ _ => true
  | .sysWrite _ _ _ => true
  | _ => false

/-- The device and the kernel.  Every answer depends on the calls made so far.
`getDescriptor` and `getReport` give the buffer and the 16-bit length they store
through their reference parameters; `sysOpen` is the result of
`::open("/dev/uhid", O_RDWR)`; `sysRead` is `none` when `read` does not deliver
a whole record; `sysWriteFull` tells whether `write` takes the whole record. -/
structure Env where
  getDescriptor : List Call → List Nat × Nat
  isNumberedReport : List Call → ReportType → Bool
  getReport : List Call → ReportType → Nat → Bool × List Nat × Nat
  setReport : List Call → ReportType → Nat → List Nat → Nat → Bool
  sysOpen : List Call → Int
  sysRead : List Call → Option uhid_event
  sysWriteFull : List Call → uhid_event → Bool

/-- The driver object: the descriptor `fd` and the ghost history `log`. -/
structure UhidDriver where
  fd : Int
  log : List Call
  deriving DecidableEq, Repr

/-- The function `mapReportType` of `uhid.cpp`. -/
def mapReportType (reportType : Nat) : ReportType :=
  if reportType = UHID_INPUT_REPORT then ReportType.Input
  else if reportType = UHID_OUTPUT_REPORT then ReportType.Output
  else if reportType = UHID_FEATURE_REPORT then ReportType.Feature
  else ReportType.Invalid

/-- The call `memcpy(dst + off, src, n)` where `dst` is an array of `cap` bytes and
`src` a buffer: the bytes stored, or an overrun when the destination has no room
for `n` bytes at `off` or the source has fewer than `n` bytes. -/
def memcpy (cap off : Nat) (src : List Nat) (n : Nat) : Except Fault (List Nat) :=
  if off + n ≤ cap then
    if n ≤ src.length then Except.ok (src.take n) else Except.error Fault.bufferOverrun
  else Except.error Fault.bufferOverrun

/-- Append a step to the ghost history. -/
def UhidDriver.record (s : UhidDriver) (c : Call) : UhidDriver :=
  { s with log := s.log ++ [c] }

/-- The member `close`. -/
def UhidDriver.close (s : UhidDriver) : Bool × UhidDriver :=
  if 0 ≤ s.fd then (true, { fd := -1, log := s.log ++ [Call.sysClose s.fd] })
  else (false, s)

/-- The member `getFD`. -/
def UhidDriver.getFD (s : UhidDriver) : Int := s.fd

/-- The conversion `operator bool`. -/
def UhidDriver.operatorBool (s : UhidDriver) : Bool := decide (0 ≤ s.fd)

/-- The member `setDeviceAttributes`: `strcpy` of the device name. -/
def UhidDriver.setDeviceAttributes (attributes : uhid_create2_req) : uhid_create2_req :=
  { attributes with name := "UHID Device" }

/-- The record `ev.u.create2` after `memset(&ev.u.create2, 0, ...)`. -/
def UhidDriver.zeroCreate2 : uhid_create2_req :=
  { name := "", phys := "", uniq := "", rd_size := 0, bus := 0, vendor := 0,
    product := 0, version := 0, country := 0, rd_data := [] }

/-- Write one record and, when the write is short, close: the common tail
`if (write(fd, &ev, sizeof(ev)) != sizeof(ev)) { close(); return false; } return true;`. -/
def UhidDriver.writeEvent (env : Env) (s : UhidDriver) (ev : uhid_event) : Outcome × UhidDriver :=
  let full := env.sysWriteFull s.log ev
  let s1 := s.record (Call.sysWrite s.fd ev full)
  if full then (Outcome.ret true, s1) else (Outcome.ret false, s1.close.2)

/-- The member `open`.  The descriptor is requested first; the new descriptor
replaces `fd` whatever it was; the descriptor bytes are copied into `rd_data`. -/
def UhidDriver.open (env : Env) (s : UhidDriver) : Outcome × UhidDriver :=
  let hidDescriptor := (env.getDescriptor s.log).1
  let hidDescriptorLength := (env.getDescriptor s.log).2
  let s1 := s.record Call.getDescriptor
  let fd := env.sysOpen s1.log
  let s2 : UhidDriver := { fd := fd, log := s1.log ++ [Call.sysOpen fd] }
  if fd < 0 then (Outcome.ret false, s2)
  else
    match memcpy HID_MAX_DESCRIPTOR_SIZE 0 hidDescriptor hidDescriptorLength with
    | Except.error f => (Outcome.undef f, s2)
    | Except.ok rd =>
      let ev := uhid_event.UHID_CREATE2
        { UhidDriver.setDeviceAttributes UhidDriver.zeroCreate2 with
          rd_size := hidDescriptorLength, rd_data := rd }
      s2.writeEvent env ev

/-- The member `sendInputReport`.  The stores `size = reportSize + 1` (sixteen
bits), `data[0] = reportNum` and the copy of the body to `data + 1` make up the
numbered framing; the unnumbered one copies the body to `data`. -/
def UhidDriver.sendInputReport (env : Env) (s : UhidDriver) (reportNum : Nat)
    (reportBuffer : List Nat) (reportSize : Nat) : Outcome × UhidDriver :=
  if s.fd < 0 then (Outcome.ret false, s)
  else
    let numbered := env.isNumberedReport s.log ReportType.Input
    let s1 := s.record (Call.isNumberedReport ReportType.Input)
    if numbered then
      match memcpy UHID_DATA_MAX 1 reportBuffer reportSize with
      | Except.error f => (Outcome.undef f, s1)
      | Except.ok body =>
        UhidDriver.writeEvent env s1 (uhid_event.UHID_INPUT2 ((reportSize + 1) % 65536) (reportNum :: body))
    else
      match memcpy UHID_DATA_MAX 0 reportBuffer reportSize with
      | Except.error f => (Outcome.undef f, s1)
      | Except.ok body =>
        UhidDriver.writeEvent env s1 (uhid_event.UHID_INPUT2 reportSize body)

/-- The member `handleMessage`.  The `switch` over the event kind has no default
case and no `return` after it: for a kind it does not list, control reaches the end
of a function that must return a value (`Fault.missingReturn`).  In the OUTPUT
branch `data + 1` is `data.drop 1`, `data[0]` is the head of the array, and
`size - 1` is taken in sixteen bits. -/
def UhidDriver.handleMessage (env : Env) (s : UhidDriver) : Outcome × UhidDriver :=
  if s.fd < 0 then (Outcome.ret false, s)
  else
    let r := env.sysRead s.log
    let s1 := s.record (Call.sysRead s.fd r)
    match r with
    | none => (Outcome.ret false, s1.close.2)
    | some uhid_event.UHID_START => (Outcome.ret true, s1)
    | some uhid_event.UHID_STOP => (Outcome.ret true, s1)
    | some uhid_event.UHID_OPEN => (Outcome.ret true, s1.record Call.start)
    | some uhid_event.UHID_CLOSE => (Outcome.ret true, s1.record Call.stop)
    | some (uhid_event.UHID_OUTPUT data size rtype) =>
      let reportType := mapReportType rtype
      let isNumberedReport := env.isNumberedReport s1.log reportType
      let s2 := s1.record (Call.isNumberedReport reportType)
      let reportNum := if isNumberedReport then data.headD 0 else 0
      let reportBuffer := if isNumberedReport then data.drop 1 else data
      let reportLength := if isNumberedReport then (size + 65535) % 65536 else size
      (Outcome.ret true, s2.record (Call.setReport reportType reportNum reportBuffer reportLength))
    | some (uhid_event.UHID_GET_REPORT id reportNum rtype) =>
      let reportType := mapReportType rtype
      let isNumberedReport := env.isNumberedReport s1.log reportType
      let s2 := s1.record (Call.isNumberedReport reportType)
      let ret := (env.getReport s2.log reportType reportNum).1
      let reportBuffer := (env.getReport s2.log reportType reportNum).2.1
      let reportLength := (env.getReport s2.log reportType reportNum).2.2
      let s3 := s2.record (Call.getReport reportType reportNum)
      if !ret then
        UhidDriver.writeEvent env s3 (uhid_event.UHID_GET_REPORT_REPLY id EIO 0 [])
      else if isNumberedReport then
        match memcpy UHID_DATA_MAX 1 reportBuffer reportLength with
        | Except.error f => (Outcome.undef f, s3)
        | Except.ok body =>
          UhidDriver.writeEvent env s3
            (uhid_event.UHID_GET_REPORT_REPLY id 0 ((reportLength + 1) % 65536) (reportNum :: body))
      else
        match memcpy UHID_DATA_MAX 0 reportBuffer reportLength with
        | Except.error f => (Outcome.undef f, s3)
        | Except.ok body =>
          UhidDriver.writeEvent env s3 (uhid_event.UHID_GET_REPORT_REPLY id 0 reportLength body)
    | some (uhid_event.UHID_SET_REPORT id reportNum rtype size data) =>
      let reportType := mapReportType rtype
      let s2 := s1.record (Call.isNumberedReport reportType)
      let ret := env.setReport s2.log reportType reportNum data size
      let s3 := s2.record (Call.setReport reportType reportNum data size)
      if !ret then
        UhidDriver.writeEvent env s3 (uhid_event.UHID_SET_REPORT_REPLY id EIO)
      else
        UhidDriver.writeEvent env s3 (uhid_event.UHID_SET_REPORT_REPLY id 0)
    | some _ => (Outcome.undef Fault.missingReturn, s1)

/-- The member `handleMessageLoop`, `while (handleMessage()); return false;`, with
a bound on the number of iterations: `none` when the bound is used up. -/
def UhidDriver.handleMessageLoop (env : Env) : Nat → UhidDriver → Option (Outcome × UhidDriver)
  | 0, _ => none
  | fuel + 1, s =>
    match UhidDriver.handleMessage env s with
    | (Outcome.ret true, s1) => UhidDriver.handleMessageLoop env fuel s1
    | (Outcome.ret false, s1) => some (Outcome.ret false, s1)
    | (Outcome.undef f, s1) => some (Outcome.undef f, s1)

/-! ## Auxiliary notions for the statements -/

/-- The steps a member function added to the history: the log of the state after,
without the log of the state before. -/
def newCalls (before after : UhidDriver) : List Call :=
  after.log.drop before.log.length

/-- Is the step a short `read` or a short `write`? -/
def Call.isShortTransfer : Call → Bool
  | .sysRead _ none => true
  | .sysWrite _ _ false => true
  | _ => false

/-- Is the step a call of `device.setReport`? -/
def Call.isSetReport : Call → Bool
  | .setReport _ _ _ _ => true
  | _ => false

/-- The state after `n` iterations of the event loop that all returned `true`;
`none` when one of them did not. -/
def UhidDriver.iterate (env : Env) : Nat → UhidDriver → Option UhidDriver
  | 0, s => some s
  | n + 1, s =>
    match UhidDriver.handleMessage env s with
    | (Outcome.ret true, s1) => UhidDriver.iterate env n s1
    | _ => none

/-- An environment whose answers do not depend on the history, for the examples:
`numbered` answers `isNumberedReport`, `report` answers `getReport`, `setOk`
answers `setReport`, `openFd` is the result of opening the channel, `rd` the
result of every read and `wr` tells whether writes are whole. -/
def constEnv (numbered : Bool) (report : Bool × List Nat × Nat) (setOk : Bool)
    (openFd : Int) (rd : Option uhid_event) (wr : Bool) : Env :=
  { getDescriptor := fun _ => ([5, 1, 9, 6], 4)
    isNumberedReport := fun _ _ => numbered
    getReport := fun _ _ _ => report
    setReport := fun _ _ _ _ _ => setOk
    sysOpen := fun _ => openFd
    sysRead := fun _ => rd
    sysWriteFull := fun _ _ => wr }

/-! ## Basic facts -/

theorem memcpy_fits (cap off : Nat) (src : List Nat) (n : Nat)
    (hdst : off + n ≤ cap) (hsrc : n ≤ src.length) :
    memcpy cap off src n = Except.ok (src.take n) := by
  simp [memcpy, hdst, hsrc]

theorem memcpy_overrun (cap off : Nat) (src : List Nat) (n : Nat)
    (hdst : cap < off + n) :
    memcpy cap off src n = Except.error Fault.bufferOverrun := by
  simp [memcpy, Nat.not_le.mpr hdst]

theorem writeEvent_full (env : Env) (s : UhidDriver) (ev : uhid_event)
    (h : env.sysWriteFull s.log ev = true) :
    s.writeEvent env ev
      = (Outcome.ret true, { fd := s.fd, log := s.log ++ [Call.sysWrite s.fd ev true] }) := by
  simp [UhidDriver.writeEvent, UhidDriver.record, h]

theorem writeEvent_short (env : Env) (s : UhidDriver) (ev : uhid_event)
    (hfd : 0 ≤ s.fd) (h : env.sysWriteFull s.log ev = false) :
    s.writeEvent env ev
      = (Outcome.ret false,
          { fd := -1, log := s.log ++ [Call.sysWrite s.fd ev false, Call.sysClose s.fd] }) := by
  simp [UhidDriver.writeEvent, UhidDriver.record, UhidDriver.close, h, hfd]

theorem writeEvent_eq (env : Env) (fd : Int) (log : List Call) (ev : uhid_event)
    (hfd : 0 ≤ fd) :
    UhidDriver.writeEvent env { fd := fd, log := log } ev
      = (Outcome.ret (env.sysWriteFull log ev),
          if env.sysWriteFull log ev = true then
            { fd := fd, log := log ++ [Call.sysWrite fd ev true] }
          else { fd := -1, log := log ++ [Call.sysWrite fd ev false, Call.sysClose fd] }) := by
  cases h : env.sysWriteFull log ev with
  | true => simpa [h] using writeEvent_full env { fd := fd, log := log } ev h
  | false => simpa [h] using writeEvent_short env { fd := fd, log := log } ev hfd h

theorem newCalls_writeEvent (s : UhidDriver) (added : List Call) (fd fd1 : Int)
    (ev : uhid_event) (full : Bool) :
    newCalls s
      (if full = true then
        ({ fd := fd, log := s.log ++ added ++ [Call.sysWrite fd ev true] } : UhidDriver)
      else { fd := fd1, log := s.log ++ added ++ [Call.sysWrite fd ev false, Call.sysClose fd] })
      = added ++ [Call.sysWrite fd ev full] ++ (if full = true then [] else [Call.sysClose fd]) := by
  cases full <;> simp [newCalls]

/-- The SET_REPORT branch of `handleMessage`, up to the write of the reply. -/
theorem handleMessage_set_report (env : Env) (s : UhidDriver) (id reportNum rtype size : Nat)
    (data : List Nat) (hrunning : 0 ≤ s.fd)
    (hread : env.sysRead s.log = some (uhid_event.UHID_SET_REPORT id reportNum rtype size data)) :
    s.handleMessage env
      = UhidDriver.writeEvent env
          { fd := s.fd,
            log := s.log ++ [Call.sysRead s.fd
                (some (uhid_event.UHID_SET_REPORT id reportNum rtype size data)),
              Call.isNumberedReport (mapReportType rtype),
              Call.setReport (mapReportType rtype) reportNum data size] }
          (uhid_event.UHID_SET_REPORT_REPLY id
            (if env.setReport
                (s.log ++ [Call.sysRead s.fd
                    (some (uhid_event.UHID_SET_REPORT id reportNum rtype size data)),
                  Call.isNumberedReport (mapReportType rtype)])
                (mapReportType rtype) reportNum data size = true
              then 0 else EIO)) := by
  have hnot : ¬ s.fd < 0 := not_lt.mpr hrunning
  simp only [UhidDriver.handleMessage, hnot, if_false, hread, UhidDriver.record,
    List.append_assoc, List.singleton_append]
  cases env.setReport
    (s.log ++ [Call.sysRead s.fd (some (uhid_event.UHID_SET_REPORT id reportNum rtype size data)),
      Call.isNumberedReport (mapReportType rtype)])
    (mapReportType rtype) reportNum data size <;> simp

/-- The GET_REPORT branch of `handleMessage` when the device reports success and
the framed payload fits the `data` array, up to the write of the reply. -/
theorem handleMessage_get_report_ok (env : Env) (s : UhidDriver) (id reportNum rtype : Nat)
    (hrunning : 0 ≤ s.fd)
    (hread : env.sysRead s.log = some (uhid_event.UHID_GET_REPORT id reportNum rtype))
    (numbered : Bool) (reportBuffer : List Nat) (reportLength : Nat)
    (hnum : env.isNumberedReport
        (s.log ++ [Call.sysRead s.fd (some (uhid_event.UHID_GET_REPORT id reportNum rtype))])
        (mapReportType rtype) = numbered)
    (hget : env.getReport
        (s.log ++ [Call.sysRead s.fd (some (uhid_event.UHID_GET_REPORT id reportNum rtype)),
          Call.isNumberedReport (mapReportType rtype)])
        (mapReportType rtype) reportNum = (true, reportBuffer, reportLength))
    (hbuffer : reportLength ≤ reportBuffer.length)
    (hfits : reportLength + (if numbered = true then 1 else 0) ≤ UHID_DATA_MAX) :
    s.handleMessage env
      = UhidDriver.writeEvent env
          { fd := s.fd,
            log := s.log ++ [Call.sysRead s.fd (some (uhid_event.UHID_GET_REPORT id reportNum rtype)),
              Call.isNumberedReport (mapReportType rtype),
              Call.getReport (mapReportType rtype) reportNum] }
          (if numbered = true then
            uhid_event.UHID_GET_REPORT_REPLY id 0 (reportLength + 1)
              (reportNum :: reportBuffer.take reportLength)
          else
            uhid_event.UHID_GET_REPORT_REPLY id 0 reportLength
              (reportBuffer.take reportLength)) := by
  have hnot : ¬ s.fd < 0 := not_lt.mpr hrunning
  have hmax : UHID_DATA_MAX = 4096 := rfl
  simp only [UhidDriver.handleMessage, hnot, if_false, hread, UhidDriver.record,
    List.append_assoc, List.singleton_append, List.cons_append, List.nil_append, hnum, hget]
  cases numbered with
  | true =>
    have hf : 1 + reportLength ≤ UHID_DATA_MAX := by
      simp only [if_true] at hfits
      omega
    have hmod : (reportLength + 1) % 65536 = reportLength + 1 := by
      apply Nat.mod_eq_of_lt
      omega
    simp [memcpy_fits _ _ _ _ hf hbuffer, hmod]
  | false =>
    have hf : 0 + reportLength ≤ UHID_DATA_MAX := by
      simpa using hfits
    simp [memcpy_fits _ _ _ _ hf hbuffer]

theorem newCalls_append (s : UhidDriver) (fd : Int) (added : List Call) :
    newCalls s { fd := fd, log := s.log ++ added } = added := by
  simp [newCalls]

/-- A Running `writeEvent` after steps without a short transfer: when its write is
short it returns `false` with `fd = -1`; otherwise it does not return `false`
(it returns `true`) and the descriptor is unchanged. -/
theorem writeEvent_effect (env : Env) (s : UhidDriver) (fd : Int) (added : List Call)
    (ev : uhid_event) (hfd : 0 ≤ fd)
    (hadded : ∀ c ∈ added, c.isShortTransfer = false) :
    ((∃ c ∈ newCalls s (UhidDriver.writeEvent env { fd := fd, log := s.log ++ added } ev).2,
          c.isShortTransfer = true) →
        (UhidDriver.writeEvent env { fd := fd, log := s.log ++ added } ev).1 = Outcome.ret false
        ∧ (UhidDriver.writeEvent env { fd := fd, log := s.log ++ added } ev).2.fd = -1)
    ∧ ((∀ c ∈ newCalls s (UhidDriver.writeEvent env { fd := fd, log := s.log ++ added } ev).2,
          c.isShortTransfer = false) →
        (UhidDriver.writeEvent env { fd := fd, log := s.log ++ added } ev).1 ≠ Outcome.ret false
        ∧ (UhidDriver.writeEvent env { fd := fd, log := s.log ++ added } ev).2.fd = fd) := by
  rw [writeEvent_eq env _ _ _ hfd]
  cases hw : env.sysWriteFull (s.log ++ added) ev with
  | true =>
    simp only [if_true]
    constructor
    · rintro ⟨c, hc, hshort⟩
      simp only [List.append_assoc, newCalls_append, List.mem_append, List.mem_singleton] at hc
      rcases hc with hc | hc
      · rw [hadded c hc] at hshort
        cases hshort
      · rw [hc] at hshort
        simp [Call.isShortTransfer] at hshort
    · intro _
      simp
  | false =>
    simp only [Bool.false_eq_true, if_false]
    constructor
    · intro _
      simp
    · intro hall
      have := hall (Call.sysWrite fd ev false) (by simp [newCalls])
      simp [Call.isShortTransfer] at this

/-- The GET_REPORT branch of `handleMessage`: after the read and the two device
calls, either a copy overruns the `data` array of the reply, or one reply is
written. -/
theorem handleMessage_get_report (env : Env) (s : UhidDriver) (id reportNum rtype : Nat)
    (hrunning : 0 ≤ s.fd)
    (hread : env.sysRead s.log = some (uhid_event.UHID_GET_REPORT id reportNum rtype)) :
    (∃ f, s.handleMessage env
        = (Outcome.undef f,
            { fd := s.fd,
              log := s.log ++ [Call.sysRead s.fd
                  (some (uhid_event.UHID_GET_REPORT id reportNum rtype)),
                Call.isNumberedReport (mapReportType rtype),
                Call.getReport (mapReportType rtype) reportNum] }))
    ∨ (∃ err size data, s.handleMessage env
        = UhidDriver.writeEvent env
            { fd := s.fd,
              log := s.log ++ [Call.sysRead s.fd
                  (some (uhid_event.UHID_GET_REPORT id reportNum rtype)),
                Call.isNumberedReport (mapReportType rtype),
                Call.getReport (mapReportType rtype) reportNum] }
            (uhid_event.UHID_GET_REPORT_REPLY id err size data)) := by
  have hnot : ¬ s.fd < 0 := not_lt.mpr hrunning
  simp only [UhidDriver.handleMessage, hnot, if_false, hread, UhidDriver.record,
    List.append_assoc, List.singleton_append, List.cons_append, List.nil_append]
  split
  · exact Or.inr ⟨_, _, _, rfl⟩
  · split
    · split
      · exact Or.inl ⟨_, rfl⟩
      · exact Or.inr ⟨_, _, _, rfl⟩
    · split
      · exact Or.inl ⟨_, rfl⟩
      · exact Or.inr ⟨_, _, _, rfl⟩

/-- A step of the event loop on a Running session: if it performs a short read or
a short write it returns `false` and leaves `fd = -1`; if it performs none it does
not return `false` and leaves the descriptor unchanged. -/
theorem handleMessage_effect (env : Env) (s : UhidDriver) (hrunning : 0 ≤ s.fd) :
    ((∃ c ∈ newCalls s (s.handleMessage env).2, c.isShortTransfer = true) →
        (s.handleMessage env).1 = Outcome.ret false ∧ (s.handleMessage env).2.fd = -1)
    ∧ ((∀ c ∈ newCalls s (s.handleMessage env).2, c.isShortTransfer = false) →
        (s.handleMessage env).1 ≠ Outcome.ret false ∧ (s.handleMessage env).2.fd = s.fd) := by
  have hnot : ¬ s.fd < 0 := not_lt.mpr hrunning
  cases hread : env.sysRead s.log with
  | none =>
    have hrun : s.handleMessage env
        = (Outcome.ret false,
            { fd := -1, log := s.log ++ [Call.sysRead s.fd none, Call.sysClose s.fd] }) := by
      simp [UhidDriver.handleMessage, hnot, hread, UhidDriver.record, UhidDriver.close, hrunning]
    rw [hrun]
    constructor
    · intro _
      exact ⟨rfl, rfl⟩
    · intro hall
      have := hall (Call.sysRead s.fd none) (by simp [newCalls])
      simp [Call.isShortTransfer] at this
  | some ev =>
    cases ev with
    | UHID_GET_REPORT id reportNum rtype =>
      rcases handleMessage_get_report env s id reportNum rtype hrunning hread with
        ⟨f, hrun⟩ | ⟨err, size, data, hrun⟩
      · rw [hrun]
        simp [newCalls, Call.isShortTransfer]
      · rw [hrun]
        apply writeEvent_effect env s s.fd _ _ hrunning
        intro c hc
        simp only [List.mem_cons, List.mem_singleton, List.not_mem_nil, or_false] at hc
        rcases hc with rfl | rfl | rfl <;> rfl
    | UHID_SET_REPORT id reportNum rtype size data =>
      rw [handleMessage_set_report env s id reportNum rtype size data hrunning hread]
      apply writeEvent_effect env s s.fd _ _ hrunning
      intro c hc
      simp only [List.mem_cons, List.mem_singleton, List.not_mem_nil, or_false] at hc
      rcases hc with rfl | rfl | rfl <;> rfl
    | _ =>
      simp [UhidDriver.handleMessage, hnot, hread, UhidDriver.record, newCalls,
        Call.isShortTransfer]

/-- A Running `sendInputReport`: after the device call, either the copy overruns
the `data` array of the record, or one `UHID_INPUT2` record is written. -/
theorem sendInputReport_cases (env : Env) (s : UhidDriver) (reportNum : Nat)
    (reportBuffer : List Nat) (reportSize : Nat) (hrunning : 0 ≤ s.fd) :
    (∃ f, s.sendInputReport env reportNum reportBuffer reportSize
        = (Outcome.undef f,
            { fd := s.fd, log := s.log ++ [Call.isNumberedReport ReportType.Input] }))
    ∨ (∃ size data, s.sendInputReport env reportNum reportBuffer reportSize
        = UhidDriver.writeEvent env
            { fd := s.fd, log := s.log ++ [Call.isNumberedReport ReportType.Input] }
            (uhid_event.UHID_INPUT2 size data)) := by
  have hnot : ¬ s.fd < 0 := not_lt.mpr hrunning
  simp only [UhidDriver.sendInputReport, hnot, if_false, UhidDriver.record]
  split
  · split
    · exact Or.inl ⟨_, rfl⟩
    · exact Or.inr ⟨_, _, rfl⟩
  · split
    · exact Or.inl ⟨_, rfl⟩
    · exact Or.inr ⟨_, _, rfl⟩

/-- A Running `sendInputReport`: if it performs a short write it returns `false`
and leaves `fd = -1`; if it performs none it does not return `false` and leaves the
descriptor unchanged. -/
theorem sendInputReport_effect (env : Env) (s : UhidDriver) (reportNum : Nat)
    (reportBuffer : List Nat) (reportSize : Nat) (hrunning : 0 ≤ s.fd) :
    ((∃ c ∈ newCalls s (s.sendInputReport env reportNum reportBuffer reportSize).2,
          c.isShortTransfer = true) →
        (s.sendInputReport env reportNum reportBuffer reportSize).1 = Outcome.ret false
        ∧ (s.sendInputReport env reportNum reportBuffer reportSize).2.fd = -1)
    ∧ ((∀ c ∈ newCalls s (s.sendInputReport env reportNum reportBuffer reportSize).2,
          c.isShortTransfer = false) →
        (s.sendInputReport env reportNum reportBuffer reportSize).1 ≠ Outcome.ret false
        ∧ (s.sendInputReport env reportNum reportBuffer reportSize).2.fd = s.fd) := by
  rcases sendInputReport_cases env s reportNum reportBuffer reportSize hrunning with
    ⟨f, hrun⟩ | ⟨size, data, hrun⟩
  · rw [hrun]
    simp [newCalls, Call.isShortTransfer]
  · rw [hrun]
    apply writeEvent_effect env s s.fd _ _ hrunning
    intro c hc
    simp only [List.mem_singleton] at hc
    rw [hc]
    rfl

/-- A call of `handleMessage` that returns `false` leaves the session Closed. -/
theorem handleMessage_false_closed (env : Env) (s : UhidDriver)
    (hret : (s.handleMessage env).1 = Outcome.ret false) :
    (s.handleMessage env).2.fd < 0 := by
  by_cases hfd : s.fd < 0
  · have hrun : s.handleMessage env = (Outcome.ret false, s) := by
      simp [UhidDriver.handleMessage, hfd]
    rw [hrun]
    exact hfd
  · have hrunning : 0 ≤ s.fd := not_lt.mp hfd
    have heff := handleMessage_effect env s hrunning
    by_cases hshort : ∃ c ∈ newCalls s (s.handleMessage env).2, c.isShortTransfer = true
    · rw [(heff.1 hshort).2]
      decide
    · exfalso
      apply (heff.2 ?_).1 hret
      intro c hc
      cases hval : c.isShortTransfer with
      | false => rfl
      | true => exact absurd ⟨c, hc, hval⟩ hshort

/-- The event loop never returns `true`, and when it returns `false` the session
is Closed. -/
theorem handleMessageLoop_returns (env : Env) (fuel : Nat) :
    ∀ (s : UhidDriver) (out : Outcome) (after : UhidDriver),
      UhidDriver.handleMessageLoop env fuel s = some (out, after) →
      out ≠ Outcome.ret true ∧ (out = Outcome.ret false → after.fd < 0) := by
  induction fuel with
  | zero =>
    intro s out after h
    simp [UhidDriver.handleMessageLoop] at h
  | succ n ih =>
    intro s out after h
    rw [UhidDriver.handleMessageLoop] at h
    split at h
    · exact ih _ out after h
    · rename_i s1 hstep
      simp only [Option.some.injEq, Prod.mk.injEq] at h
      obtain ⟨rfl, rfl⟩ := h
      refine ⟨by simp, fun _ => ?_⟩
      have := handleMessage_false_closed env s (by rw [hstep])
      rw [hstep] at this
      exact this
    · simp only [Option.some.injEq, Prod.mk.injEq] at h
      obtain ⟨rfl, rfl⟩ := h
      exact ⟨by simp, by simp⟩

/-- The event loop returns as soon as a step returns `false`: after `n` steps that
returned `true`, a step that returns `false` ends the loop, whatever iterations
remain allowed. -/
theorem handleMessageLoop_terminates (env : Env) (n : Nat) :
    ∀ (s sn : UhidDriver) (k : Nat),
      UhidDriver.iterate env n s = some sn →
      (sn.handleMessage env).1 = Outcome.ret false →
      UhidDriver.handleMessageLoop env (n + 1 + k) s
        = some (Outcome.ret false, (sn.handleMessage env).2) := by
  induction n with
  | zero =>
    intro s sn k hiter hret
    simp only [UhidDriver.iterate, Option.some.injEq] at hiter
    subst hiter
    have hfuel : 0 + 1 + k = k + 1 := by omega
    rw [hfuel, UhidDriver.handleMessageLoop]
    have hpair : s.handleMessage env = (Outcome.ret false, (s.handleMessage env).2) := by
      rw [← hret]
    rw [hpair]
  | succ n ih =>
    intro s sn k hiter hret
    have hfuel : n + 1 + 1 + k = (n + 1 + k) + 1 := by omega
    rw [hfuel, UhidDriver.handleMessageLoop]
    rw [UhidDriver.iterate] at hiter
    split at hiter
    · rename_i s1 hstep
      rw [hstep]
      exact ih s1 sn k hiter hret
    · cases hiter

/-- The OUTPUT branch of `handleMessage`. -/
theorem handleMessage_output (env : Env) (s : UhidDriver) (data : List Nat) (size rtype : Nat)
    (hrunning : 0 ≤ s.fd)
    (hread : env.sysRead s.log = some (uhid_event.UHID_OUTPUT data size rtype)) :
    s.handleMessage env
      = (Outcome.ret true,
          { fd := s.fd,
            log := s.log ++ [Call.sysRead s.fd (some (uhid_event.UHID_OUTPUT data size rtype)),
              Call.isNumberedReport (mapReportType rtype),
              if env.isNumberedReport
                  (s.log ++ [Call.sysRead s.fd (some (uhid_event.UHID_OUTPUT data size rtype))])
                  (mapReportType rtype) = true then
                Call.setReport (mapReportType rtype) (data.headD 0) (data.drop 1)
                  ((size + 65535) % 65536)
              else Call.setReport (mapReportType rtype) 0 data size] }) := by
  have hnot : ¬ s.fd < 0 := not_lt.mpr hrunning
  simp only [UhidDriver.handleMessage, hnot, if_false, hread, UhidDriver.record,
    List.append_assoc, List.singleton_append, List.cons_append, List.nil_append]
  cases env.isNumberedReport
    (s.log ++ [Call.sysRead s.fd (some (uhid_event.UHID_OUTPUT data size rtype))])
    (mapReportType rtype) <;> simp

/-- The GET_REPORT branch of `handleMessage` when the device reports failure, up to
the write of the reply. -/
theorem handleMessage_get_report_fail (env : Env) (s : UhidDriver) (id reportNum rtype : Nat)
    (hrunning : 0 ≤ s.fd)
    (hread : env.sysRead s.log = some (uhid_event.UHID_GET_REPORT id reportNum rtype))
    (hfail : (env.getReport
        (s.log ++ [Call.sysRead s.fd (some (uhid_event.UHID_GET_REPORT id reportNum rtype)),
          Call.isNumberedReport (mapReportType rtype)])
        (mapReportType rtype) reportNum).1 = false) :
    s.handleMessage env
      = UhidDriver.writeEvent env
          { fd := s.fd,
            log := s.log ++ [Call.sysRead s.fd (some (uhid_event.UHID_GET_REPORT id reportNum rtype)),
              Call.isNumberedReport (mapReportType rtype),
              Call.getReport (mapReportType rtype) reportNum] }
          (uhid_event.UHID_GET_REPORT_REPLY id EIO 0 []) := by
  have hnot : ¬ s.fd < 0 := not_lt.mpr hrunning
  simp only [UhidDriver.handleMessage, hnot, if_false, hread, UhidDriver.record,
    List.append_assoc, List.singleton_append, List.cons_append, List.nil_append, hfail]
  simp

theorem mapReportType_invalid (rtype : Nat)
    (hinput : rtype ≠ UHID_INPUT_REPORT) (houtput : rtype ≠ UHID_OUTPUT_REPORT)
    (hfeature : rtype ≠ UHID_FEATURE_REPORT) :
    mapReportType rtype = ReportType.Invalid := by
  simp [mapReportType, hinput, houtput, hfeature]

/-- The three ways `open` can run: the channel cannot be opened; the copy of the
descriptor overruns `rd_data`; the creation record is written. -/
theorem open_cases (env : Env) (s : UhidDriver) :
    (env.sysOpen (s.log ++ [Call.getDescriptor]) < 0
      ∧ s.open env
        = (Outcome.ret false,
            { fd := env.sysOpen (s.log ++ [Call.getDescriptor]),
              log := s.log ++ [Call.getDescriptor,
                Call.sysOpen (env.sysOpen (s.log ++ [Call.getDescriptor]))] }))
    ∨ (0 ≤ env.sysOpen (s.log ++ [Call.getDescriptor])
      ∧ ∃ f, s.open env
        = (Outcome.undef f,
            { fd := env.sysOpen (s.log ++ [Call.getDescriptor]),
              log := s.log ++ [Call.getDescriptor,
                Call.sysOpen (env.sysOpen (s.log ++ [Call.getDescriptor]))] }))
    ∨ (0 ≤ env.sysOpen (s.log ++ [Call.getDescriptor])
      ∧ ∃ req, s.open env
        = UhidDriver.writeEvent env
            { fd := env.sysOpen (s.log ++ [Call.getDescriptor]),
              log := s.log ++ [Call.getDescriptor,
                Call.sysOpen (env.sysOpen (s.log ++ [Call.getDescriptor]))] }
            (uhid_event.UHID_CREATE2 req)) := by
  by_cases hfd : env.sysOpen (s.log ++ [Call.getDescriptor]) < 0
  · left
    refine ⟨hfd, ?_⟩
    simp [UhidDriver.open, UhidDriver.record, hfd]
  · right
    have hrunning : 0 ≤ env.sysOpen (s.log ++ [Call.getDescriptor]) := not_lt.mp hfd
    simp only [UhidDriver.open, UhidDriver.record, hfd, if_false, List.append_assoc,
      List.singleton_append]
    split
    · exact Or.inl ⟨hrunning, _, rfl⟩
    · exact Or.inr ⟨hrunning, _, rfl⟩

/-! ## Claims -/

/-- C10. When the session is not Running (`fd < 0`), `sendInputReport` (whatever
its arguments) and `handleMessage` return `false` and leave the driver as it was:
the descriptor is unchanged and the history gains no step, so nothing is read
from or written to the channel and no device method is called. -/
theorem C10_not_running_is_noop (env : Env) (s : UhidDriver) (reportNum : Nat)
    (reportBuffer : List Nat) (reportSize : Nat) (hclosed : s.fd < 0) :
    s.sendInputReport env reportNum reportBuffer reportSize = (Outcome.ret false, s)
    ∧ s.handleMessage env = (Outcome.ret false, s)
    ∧ newCalls s (s.sendInputReport env reportNum reportBuffer reportSize).2 = []
    ∧ newCalls s (s.handleMessage env).2 = []
    ∧ s.operatorBool = false := by
  have h1 : s.sendInputReport env reportNum reportBuffer reportSize = (Outcome.ret false, s) := by
    simp [UhidDriver.sendInputReport, hclosed]
  have h2 : s.handleMessage env = (Outcome.ret false, s) := by
    simp [UhidDriver.handleMessage, hclosed]
  refine ⟨h1, h2, ?_, ?_, ?_⟩
  · simp [h1, newCalls]
  · simp [h2, newCalls]
  · simp [UhidDriver.operatorBool, hclosed]

theorem C10_not_running_is_noop_witness :
    (-1 : Int) < 0
    ∧ UhidDriver.sendInputReport (constEnv true (true, [1, 2], 2) true 3 none true)
        { fd := -1, log := [] } 3 [170, 170] 2
      = (Outcome.ret false, { fd := -1, log := [] })
    ∧ UhidDriver.handleMessage (constEnv true (true, [1, 2], 2) true 3 none true)
        { fd := -1, log := [] }
      = (Outcome.ret false, { fd := -1, log := [] }) :=
  ⟨by decide,
   (C10_not_running_is_noop (constEnv true (true, [1, 2], 2) true 3 none true)
      { fd := -1, log := [] } 3 [170, 170] 2 (by decide)).1,
   (C10_not_running_is_noop (constEnv true (true, [1, 2], 2) true 3 none true)
      { fd := -1, log := [] } 3 [170, 170] 2 (by decide)).2.1⟩

/-- C1 (as amended). For every `reportNum`, buffer and `reportSize` such that the
buffer holds `reportSize` bytes and the framed payload fits the `data` array of
the record (`reportSize + 1 ≤ UHID_DATA_MAX` for a numbered Input type,
`reportSize ≤ UHID_DATA_MAX` otherwise), a Running `sendInputReport` consults
`isNumberedReport(Input)` and writes one `UHID_INPUT2` record: numbered, its size
is `reportSize + 1`, `data[0]` is `reportNum` and the body follows; unnumbered, its
size is `reportSize` and the data is the body.  When the write is whole the call
returns `true` and the session stays Running. -/
theorem C1_sendInputReport_framing (env : Env) (s : UhidDriver) (reportNum : Nat)
    (reportBuffer : List Nat) (reportSize : Nat)
    (hrunning : 0 ≤ s.fd)
    (hbuffer : reportSize ≤ reportBuffer.length)
    (hfits : reportSize + (if env.isNumberedReport s.log ReportType.Input then 1 else 0)
      ≤ UHID_DATA_MAX) :
    let body := reportBuffer.take reportSize
    let ev :=
      if env.isNumberedReport s.log ReportType.Input then
        uhid_event.UHID_INPUT2 (reportSize + 1) (reportNum :: body)
      else uhid_event.UHID_INPUT2 reportSize body
    let log1 := s.log ++ [Call.isNumberedReport ReportType.Input]
    (env.sysWriteFull log1 ev = true →
      s.sendInputReport env reportNum reportBuffer reportSize
        = (Outcome.ret true, { fd := s.fd, log := log1 ++ [Call.sysWrite s.fd ev true] }))
    ∧ (env.sysWriteFull log1 ev = false →
      s.sendInputReport env reportNum reportBuffer reportSize
        = (Outcome.ret false,
            { fd := -1, log := log1 ++ [Call.sysWrite s.fd ev false, Call.sysClose s.fd] })) := by
  intro body ev log1
  have hnot : ¬ s.fd < 0 := not_lt.mpr hrunning
  have hmax : UHID_DATA_MAX = 4096 := rfl
  cases hnum : env.isNumberedReport s.log ReportType.Input with
  | true =>
    have hf : 1 + reportSize ≤ UHID_DATA_MAX := by
      have := hfits
      simp only [hnum, if_true] at this
      omega
    have hmod : (reportSize + 1) % 65536 = reportSize + 1 := by
      apply Nat.mod_eq_of_lt
      omega
    have hev : ev = uhid_event.UHID_INPUT2 (reportSize + 1) (reportNum :: body) := by
      simp [ev, hnum]
    constructor
    · intro hw
      rw [hev] at hw
      simp only [UhidDriver.sendInputReport, hnot, if_false, hnum, if_true,
        memcpy_fits _ _ _ _ hf hbuffer, hmod]
      rw [writeEvent_full env _ _ hw, hev]
      rfl
    · intro hw
      rw [hev] at hw
      simp only [UhidDriver.sendInputReport, hnot, if_false, hnum, if_true,
        memcpy_fits _ _ _ _ hf hbuffer, hmod]
      rw [writeEvent_short env (s.record (Call.isNumberedReport ReportType.Input)) _ hrunning hw, hev]
      rfl
  | false =>
    have hf : 0 + reportSize ≤ UHID_DATA_MAX := by
      have := hfits
      simp only [hnum] at this
      simpa using this
    have hev : ev = uhid_event.UHID_INPUT2 reportSize body := by
      simp [ev, hnum]
    constructor
    · intro hw
      rw [hev] at hw
      simp only [UhidDriver.sendInputReport, hnot, if_false, hnum,
        memcpy_fits _ _ _ _ hf hbuffer]
      rw [hev]
      exact writeEvent_full env _ _ hw
    · intro hw
      rw [hev] at hw
      simp only [UhidDriver.sendInputReport, hnot, if_false, hnum,
        memcpy_fits _ _ _ _ hf hbuffer]
      rw [hev]
      exact writeEvent_short env (s.record (Call.isNumberedReport ReportType.Input)) _ hrunning hw

/-- The scenario of the specification: `sendInputReport(3, [0xAA]*5, 5)` on a
numbered Input device writes the six-byte payload `03 AA AA AA AA AA`. -/
theorem C1_sendInputReport_framing_witness :
    UhidDriver.sendInputReport (constEnv true (false, [], 0) true 3 none true)
        { fd := 3, log := [] } 3 [170, 170, 170, 170, 170] 5
      = (Outcome.ret true,
          { fd := 3,
            log := [Call.isNumberedReport ReportType.Input,
                    Call.sysWrite 3 (uhid_event.UHID_INPUT2 6 [3, 170, 170, 170, 170, 170])
                      true] }) :=
  (C1_sendInputReport_framing (constEnv true (false, [], 0) true 3 none true)
    { fd := 3, log := [] } 3 [170, 170, 170, 170, 170] 5
    (by decide) (by decide) (by decide)).1 rfl

/-- C1 as stated fails for a report of 65535 bytes on a numbered Input device:
the size field of the record has sixteen bits and cannot hold `reportSize + 1`,
and the copy of the body leaves the `data` array, so the call has no defined
result and no `UHID_INPUT2` record with size 65536 is written. -/
theorem C1_counterexample :
    UhidDriver.sendInputReport (constEnv true (false, [], 0) true 3 none true)
        { fd := 3, log := [] } 3 (List.replicate 65535 170) 65535
      = (Outcome.undef Fault.bufferOverrun,
          { fd := 3, log := [Call.isNumberedReport ReportType.Input] })
    ∧ (65535 + 1) % 65536 ≠ 65535 + 1 := by
  constructor
  · simp [UhidDriver.sendInputReport, constEnv, UhidDriver.record, memcpy, UHID_DATA_MAX]
  · decide

/-- C3. For every `UHID_GET_REPORT` event with correlation id `id` read by a
Running session, if `device.getReport` returns `false` then `handleMessage`
writes the record `UHID_GET_REPORT_REPLY` with the same `id`, `err = EIO` (which
is not zero) and `size = 0`; when that write is whole it returns `true` and the
descriptor is unchanged, so the session is still Running. -/
theorem C3_get_report_failure_reply (env : Env) (s : UhidDriver) (id reportNum rtype : Nat)
    (hrunning : 0 ≤ s.fd)
    (hread : env.sysRead s.log = some (uhid_event.UHID_GET_REPORT id reportNum rtype))
    (hfail : (env.getReport
        (s.log ++ [Call.sysRead s.fd (some (uhid_event.UHID_GET_REPORT id reportNum rtype)),
          Call.isNumberedReport (mapReportType rtype)])
        (mapReportType rtype) reportNum).1 = false) :
    let log3 := s.log ++ [Call.sysRead s.fd (some (uhid_event.UHID_GET_REPORT id reportNum rtype)),
      Call.isNumberedReport (mapReportType rtype),
      Call.getReport (mapReportType rtype) reportNum]
    let reply := uhid_event.UHID_GET_REPORT_REPLY id EIO 0 []
    EIO ≠ 0
    ∧ (∃ full after, newCalls s (s.handleMessage env).2
        = [Call.sysRead s.fd (some (uhid_event.UHID_GET_REPORT id reportNum rtype)),
           Call.isNumberedReport (mapReportType rtype),
           Call.getReport (mapReportType rtype) reportNum,
           Call.sysWrite s.fd reply full] ++ after)
    ∧ (env.sysWriteFull log3 reply = true →
        s.handleMessage env
          = (Outcome.ret true, { fd := s.fd, log := log3 ++ [Call.sysWrite s.fd reply true] })
        ∧ (s.handleMessage env).2.operatorBool = true) := by
  intro log3 reply
  have hnot : ¬ s.fd < 0 := not_lt.mpr hrunning
  have hfail2 : (env.getReport
      (s.log ++ [Call.sysRead s.fd (some (uhid_event.UHID_GET_REPORT id reportNum rtype))]
        ++ [Call.isNumberedReport (mapReportType rtype)])
      (mapReportType rtype) reportNum).1 = false := by
    simpa using hfail
  have hrun : s.handleMessage env
      = UhidDriver.writeEvent env { fd := s.fd, log := log3 } reply := by
    simp only [UhidDriver.handleMessage, hnot, if_false, hread, UhidDriver.record, hfail2]
    simp [log3, reply]
  refine ⟨by decide, ?_, ?_⟩
  · rw [hrun]
    cases hw : env.sysWriteFull log3 reply with
    | true =>
      refine ⟨true, [], ?_⟩
      rw [writeEvent_full env _ _ hw]
      simp [newCalls, log3, reply]
    | false =>
      refine ⟨false, [Call.sysClose s.fd], ?_⟩
      rw [writeEvent_short env { fd := s.fd, log := log3 } _ hrunning hw]
      simp [newCalls, log3, reply]
  · intro hw
    rw [hrun, writeEvent_full env _ _ hw]
    simp [UhidDriver.operatorBool, hrunning]

theorem C3_get_report_failure_reply_witness :
    UhidDriver.handleMessage
        (constEnv true (false, [], 0) true 3 (some (uhid_event.UHID_GET_REPORT 77 4 0)) true)
        { fd := 3, log := [] }
      = (Outcome.ret true,
          { fd := 3,
            log := [Call.sysRead 3 (some (uhid_event.UHID_GET_REPORT 77 4 0)),
                    Call.isNumberedReport ReportType.Feature,
                    Call.getReport ReportType.Feature 4,
                    Call.sysWrite 3 (uhid_event.UHID_GET_REPORT_REPLY 77 5 0 []) true] }) :=
  ((C3_get_report_failure_reply
    (constEnv true (false, [], 0) true 3 (some (uhid_event.UHID_GET_REPORT 77 4 0)) true)
    { fd := 3, log := [] } 77 4 0 (by decide) rfl rfl).2.2 rfl).1

/-- C4. For every `UHID_SET_REPORT` event with correlation id `id` read by a
Running session, `handleMessage` calls `device.setReport` with the mapped type,
the report number and the raw payload, and then writes the record
`UHID_SET_REPORT_REPLY` whose `id` is the request's `id` whatever `setReport`
returned and whose `err` is `EIO` if and only if `setReport` returned `false`,
and `0` otherwise. -/
theorem C4_set_report_reply (env : Env) (s : UhidDriver) (id reportNum rtype size : Nat)
    (data : List Nat)
    (hrunning : 0 ≤ s.fd)
    (hread : env.sysRead s.log = some (uhid_event.UHID_SET_REPORT id reportNum rtype size data)) :
    let request := uhid_event.UHID_SET_REPORT id reportNum rtype size data
    let ret := env.setReport
      (s.log ++ [Call.sysRead s.fd (some request), Call.isNumberedReport (mapReportType rtype)])
      (mapReportType rtype) reportNum data size
    ∃ err full after,
      newCalls s (s.handleMessage env).2
        = [Call.sysRead s.fd (some request),
           Call.isNumberedReport (mapReportType rtype),
           Call.setReport (mapReportType rtype) reportNum data size,
           Call.sysWrite s.fd (uhid_event.UHID_SET_REPORT_REPLY id err) full] ++ after
      ∧ (err = EIO ↔ ret = false)
      ∧ (err = 0 ↔ ret = true)
      ∧ (s.handleMessage env).1 = Outcome.ret full := by
  intro request ret
  have hrun := handleMessage_set_report env s id reportNum rtype size data hrunning hread
  have herr : ((if ret = true then 0 else EIO) = EIO ↔ ret = false)
      ∧ ((if ret = true then 0 else EIO) = 0 ↔ ret = true) := by
    cases ret <;> simp [ EIO]
  rw [hrun, writeEvent_eq env _ _ _ hrunning]
  exact ⟨_, _, _, newCalls_writeEvent s _ _ _ _ _, herr.1, herr.2, rfl⟩

theorem C4_set_report_reply_witness :
    ∃ err full after,
      newCalls { fd := 3, log := [] }
        (UhidDriver.handleMessage
          (constEnv false (false, [], 0) false 3
            (some (uhid_event.UHID_SET_REPORT 21 0 1 2 [8, 9])) true)
          { fd := 3, log := [] }).2
        = [Call.sysRead 3 (some (uhid_event.UHID_SET_REPORT 21 0 1 2 [8, 9])),
           Call.isNumberedReport (mapReportType 1),
           Call.setReport (mapReportType 1) 0 [8, 9] 2,
           Call.sysWrite 3 (uhid_event.UHID_SET_REPORT_REPLY 21 err) full] ++ after
      ∧ (err = EIO ↔ false = false)
      ∧ (err = 0 ↔ false = true)
      ∧ (UhidDriver.handleMessage
          (constEnv false (false, [], 0) false 3
            (some (uhid_event.UHID_SET_REPORT 21 0 1 2 [8, 9])) true)
          { fd := 3, log := [] }).1 = Outcome.ret full :=
  C4_set_report_reply
    (constEnv false (false, [], 0) false 3 (some (uhid_event.UHID_SET_REPORT 21 0 1 2 [8, 9])) true)
    { fd := 3, log := [] } 21 0 1 2 [8, 9] (by decide) rfl

/-- C9 (as amended). For every `UHID_GET_REPORT` event with correlation id `id` and
report number `reportNum` read by a Running session, if `device.getReport` returns
`true` with a buffer and a length `reportLength` such that the buffer holds
`reportLength` bytes and the framed payload fits the `data` array of the reply
(`reportLength + 1 ≤ UHID_DATA_MAX` for a numbered type,
`reportLength ≤ UHID_DATA_MAX` otherwise), then `handleMessage` writes the record
`UHID_GET_REPORT_REPLY` with the same `id` and `err = 0`: for a numbered type its
size is `reportLength + 1`, `data[0]` is `reportNum` and the payload follows; for
an unnumbered type its size is `reportLength` and the data is the payload.  The
call returns whether the write was whole. -/
theorem C9_get_report_success_reply (env : Env) (s : UhidDriver) (id reportNum rtype : Nat)
    (reportBuffer : List Nat) (reportLength : Nat)
    (hrunning : 0 ≤ s.fd)
    (hread : env.sysRead s.log = some (uhid_event.UHID_GET_REPORT id reportNum rtype))
    (hget : env.getReport
        (s.log ++ [Call.sysRead s.fd (some (uhid_event.UHID_GET_REPORT id reportNum rtype)),
          Call.isNumberedReport (mapReportType rtype)])
        (mapReportType rtype) reportNum = (true, reportBuffer, reportLength))
    (hbuffer : reportLength ≤ reportBuffer.length)
    (hfits : reportLength
        + (if env.isNumberedReport
              (s.log ++ [Call.sysRead s.fd (some (uhid_event.UHID_GET_REPORT id reportNum rtype))])
              (mapReportType rtype) = true then 1 else 0)
        ≤ UHID_DATA_MAX) :
    let payload := reportBuffer.take reportLength
    let reply :=
      if env.isNumberedReport
          (s.log ++ [Call.sysRead s.fd (some (uhid_event.UHID_GET_REPORT id reportNum rtype))])
          (mapReportType rtype) = true then
        uhid_event.UHID_GET_REPORT_REPLY id 0 (reportLength + 1) (reportNum :: payload)
      else uhid_event.UHID_GET_REPORT_REPLY id 0 reportLength payload
    ∃ full after,
      newCalls s (s.handleMessage env).2
        = [Call.sysRead s.fd (some (uhid_event.UHID_GET_REPORT id reportNum rtype)),
           Call.isNumberedReport (mapReportType rtype),
           Call.getReport (mapReportType rtype) reportNum,
           Call.sysWrite s.fd reply full] ++ after
      ∧ (s.handleMessage env).1 = Outcome.ret full := by
  intro payload reply
  rw [handleMessage_get_report_ok env s id reportNum rtype hrunning hread _ reportBuffer
    reportLength rfl hget hbuffer hfits, writeEvent_eq env _ _ _ hrunning]
  exact ⟨_, _, newCalls_writeEvent s _ _ _ _ _, rfl⟩

theorem C9_get_report_success_reply_witness :
    ∃ full after,
      newCalls { fd := 3, log := [] }
        (UhidDriver.handleMessage
          (constEnv true (true, [17, 18, 19], 2) true 3
            (some (uhid_event.UHID_GET_REPORT 77 4 0)) true)
          { fd := 3, log := [] }).2
        = [Call.sysRead 3 (some (uhid_event.UHID_GET_REPORT 77 4 0)),
           Call.isNumberedReport (mapReportType 0),
           Call.getReport (mapReportType 0) 4,
           Call.sysWrite 3 (uhid_event.UHID_GET_REPORT_REPLY 77 0 (2 + 1) (4 :: [17, 18])) full]
          ++ after
      ∧ (UhidDriver.handleMessage
          (constEnv true (true, [17, 18, 19], 2) true 3
            (some (uhid_event.UHID_GET_REPORT 77 4 0)) true)
          { fd := 3, log := [] }).1 = Outcome.ret full :=
  C9_get_report_success_reply
    (constEnv true (true, [17, 18, 19], 2) true 3 (some (uhid_event.UHID_GET_REPORT 77 4 0)) true)
    { fd := 3, log := [] } 77 4 0 [17, 18, 19] 2 (by decide) rfl rfl (by decide) (by decide)

/-- C9 as stated fails when a numbered device returns a payload of 65535 bytes:
the size field of the reply has sixteen bits and cannot hold `L + 1`, and the copy
of the payload leaves the `data` array, so `handleMessage` has no defined result
and writes no reply. -/
theorem C9_counterexample :
    UhidDriver.handleMessage
        (constEnv true (true, List.replicate 65535 170, 65535) true 3
          (some (uhid_event.UHID_GET_REPORT 77 4 0)) true)
        { fd := 3, log := [] }
      = (Outcome.undef Fault.bufferOverrun,
          { fd := 3,
            log := [Call.sysRead 3 (some (uhid_event.UHID_GET_REPORT 77 4 0)),
                    Call.isNumberedReport ReportType.Feature,
                    Call.getReport ReportType.Feature 4] })
    ∧ (65535 + 1) % 65536 ≠ 65535 + 1 := by
  constructor
  · have hcopy : memcpy UHID_DATA_MAX 1 (List.replicate 65535 170) 65535
        = Except.error Fault.bufferOverrun :=
      memcpy_overrun _ _ _ _ (by decide)
    have htype : mapReportType 0 = ReportType.Feature := by decide
    simp only [UhidDriver.handleMessage, constEnv, UhidDriver.record, hcopy, htype]
    simp
  · decide

/-- C5. For every Running session: if the event read of `handleMessage` is short,
`handleMessage` closes the channel and returns `false`; if `handleMessage` (in the
GET_REPORT or SET_REPORT branch) or `sendInputReport` performs a short write, the
operation returns `false` and the session is Closed afterwards (`fd = -1`,
`operator bool` false).  `handleMessageLoop` never returns `true`, the session is
Closed when it returns `false`, and it does return `false`, with the session
Closed, once a step performs a short read or a short write after any number of
steps that returned `true`. -/
theorem C5_short_transfer_is_fatal (env : Env) (s : UhidDriver) (reportNum : Nat)
    (reportBuffer : List Nat) (reportSize : Nat) (hrunning : 0 ≤ s.fd) :
    (env.sysRead s.log = none →
      s.handleMessage env
        = (Outcome.ret false,
            { fd := -1, log := s.log ++ [Call.sysRead s.fd none, Call.sysClose s.fd] }))
    ∧ ((∃ c ∈ newCalls s (s.handleMessage env).2, c.isShortTransfer = true) →
        (s.handleMessage env).1 = Outcome.ret false
        ∧ (s.handleMessage env).2.fd = -1
        ∧ (s.handleMessage env).2.operatorBool = false)
    ∧ ((∃ c ∈ newCalls s (s.sendInputReport env reportNum reportBuffer reportSize).2,
          c.isShortTransfer = true) →
        (s.sendInputReport env reportNum reportBuffer reportSize).1 = Outcome.ret false
        ∧ (s.sendInputReport env reportNum reportBuffer reportSize).2.fd = -1
        ∧ (s.sendInputReport env reportNum reportBuffer reportSize).2.operatorBool = false)
    ∧ (∀ fuel out after, UhidDriver.handleMessageLoop env fuel s = some (out, after) →
        out ≠ Outcome.ret true
        ∧ (out = Outcome.ret false → after.fd < 0 ∧ after.operatorBool = false))
    ∧ (∀ n sn k, UhidDriver.iterate env n s = some sn →
        (∃ c ∈ newCalls sn (sn.handleMessage env).2, c.isShortTransfer = true) →
        UhidDriver.handleMessageLoop env (n + 1 + k) s
          = some (Outcome.ret false, (sn.handleMessage env).2)
        ∧ (sn.handleMessage env).2.fd = -1) := by
  have hnot : ¬ s.fd < 0 := not_lt.mpr hrunning
  refine ⟨?_, ?_, ?_, ?_, ?_⟩
  · intro hread
    simp [UhidDriver.handleMessage, hnot, hread, UhidDriver.record, UhidDriver.close, hrunning]
  · intro hshort
    have h := (handleMessage_effect env s hrunning).1 hshort
    exact ⟨h.1, h.2, by simp [UhidDriver.operatorBool, h.2]⟩
  · intro hshort
    have h := (sendInputReport_effect env s reportNum reportBuffer reportSize hrunning).1 hshort
    exact ⟨h.1, h.2, by simp [UhidDriver.operatorBool, h.2]⟩
  · intro fuel out after hloop
    have h := handleMessageLoop_returns env fuel s out after hloop
    refine ⟨h.1, fun hout => ⟨h.2 hout, ?_⟩⟩
    simp [UhidDriver.operatorBool, h.2 hout]
  · intro n sn k hiter hshort
    by_cases hfd : sn.fd < 0
    · exfalso
      have hrun : sn.handleMessage env = (Outcome.ret false, sn) := by
        simp [UhidDriver.handleMessage, hfd]
      rw [hrun] at hshort
      simp [newCalls] at hshort
    · have h := (handleMessage_effect env sn (not_lt.mp hfd)).1 hshort
      exact ⟨handleMessageLoop_terminates env n s sn k hiter h.1, h.2⟩

/-- A Running session whose first read is short: `handleMessage` returns `false`
and closes, and the loop returns `false`. -/
theorem C5_short_transfer_is_fatal_witness :
    (0 : Int) ≤ 3
    ∧ UhidDriver.handleMessage (constEnv true (false, [], 0) true 3 none false)
        { fd := 3, log := [] }
      = (Outcome.ret false, { fd := -1, log := [Call.sysRead 3 none, Call.sysClose 3] })
    ∧ ((UhidDriver.sendInputReport (constEnv true (false, [], 0) true 3 none false)
          { fd := 3, log := [] } 3 [170, 170] 2).1 = Outcome.ret false
        ∧ (UhidDriver.sendInputReport (constEnv true (false, [], 0) true 3 none false)
          { fd := 3, log := [] } 3 [170, 170] 2).2.fd = -1
        ∧ (UhidDriver.sendInputReport (constEnv true (false, [], 0) true 3 none false)
          { fd := 3, log := [] } 3 [170, 170] 2).2.operatorBool = false)
    ∧ UhidDriver.handleMessageLoop (constEnv true (false, [], 0) true 3 none false) (0 + 1 + 4)
        { fd := 3, log := [] }
      = some (Outcome.ret false,
          (UhidDriver.handleMessage (constEnv true (false, [], 0) true 3 none false)
            { fd := 3, log := [] }).2) :=
  ⟨by decide,
   (C5_short_transfer_is_fatal (constEnv true (false, [], 0) true 3 none false)
      { fd := 3, log := [] } 3 [170, 170] 2 (by decide)).1 rfl,
   (C5_short_transfer_is_fatal (constEnv true (false, [], 0) true 3 none false)
      { fd := 3, log := [] } 3 [170, 170] 2 (by decide)).2.2.1
      ⟨Call.sysWrite 3 (uhid_event.UHID_INPUT2 3 [3, 170, 170]) false, by decide, rfl⟩,
   ((C5_short_transfer_is_fatal (constEnv true (false, [], 0) true 3 none false)
      { fd := 3, log := [] } 3 [170, 170] 2 (by decide)).2.2.2.2 0 { fd := 3, log := [] } 4 rfl
      ⟨Call.sysRead 3 none, by decide, rfl⟩).1⟩

/-- C7 (as amended). For every `UHID_OUTPUT` event read by a Running session, with
data array `data`, size `size` and mapped type `t`, `handleMessage` returns `true`,
leaves the descriptor unchanged and calls `device.setReport` exactly once: the
steps it adds are the read, the call of `isNumberedReport(t)` and that one call,
whose arguments are `(t, 0, data, size)` for an unnumbered type and
`(t, data[0], data + 1, size - 1 in sixteen bits)` for a numbered one.  Hence: if
`isNumberedReport(t)` is false the call is `setReport(t, 0, data, size)`, nothing
stripped; if it is true and the payload is not empty (`1 ≤ size`, a 16-bit size),
the call is `setReport(t, data[0], data + 1, size - 1)`: the first byte is the
report number and the remainder is the body. -/
theorem C7_output_deframing (env : Env) (s : UhidDriver) (data : List Nat) (size rtype : Nat)
    (hrunning : 0 ≤ s.fd)
    (hread : env.sysRead s.log = some (uhid_event.UHID_OUTPUT data size rtype)) :
    (s.handleMessage env
        = (Outcome.ret true,
            { fd := s.fd,
              log := s.log ++ [Call.sysRead s.fd (some (uhid_event.UHID_OUTPUT data size rtype)),
                Call.isNumberedReport (mapReportType rtype),
                if env.isNumberedReport
                    (s.log ++ [Call.sysRead s.fd (some (uhid_event.UHID_OUTPUT data size rtype))])
                    (mapReportType rtype) = true then
                  Call.setReport (mapReportType rtype) (data.headD 0) (data.drop 1)
                    ((size + 65535) % 65536)
                else Call.setReport (mapReportType rtype) 0 data size] }))
    ∧ (s.handleMessage env).1 = Outcome.ret true
    ∧ (s.handleMessage env).2.fd = s.fd
    ∧ (∃ reportNum reportBuffer reportLength,
        newCalls s (s.handleMessage env).2
          = [Call.sysRead s.fd (some (uhid_event.UHID_OUTPUT data size rtype)),
             Call.isNumberedReport (mapReportType rtype),
             Call.setReport (mapReportType rtype) reportNum reportBuffer reportLength])
    ∧ (newCalls s (s.handleMessage env).2).countP Call.isSetReport = 1
    ∧ (env.isNumberedReport
        (s.log ++ [Call.sysRead s.fd (some (uhid_event.UHID_OUTPUT data size rtype))])
        (mapReportType rtype) = false →
      s.handleMessage env
        = (Outcome.ret true,
            { fd := s.fd,
              log := s.log ++ [Call.sysRead s.fd (some (uhid_event.UHID_OUTPUT data size rtype)),
                Call.isNumberedReport (mapReportType rtype),
                Call.setReport (mapReportType rtype) 0 data size] }))
    ∧ (env.isNumberedReport
        (s.log ++ [Call.sysRead s.fd (some (uhid_event.UHID_OUTPUT data size rtype))])
        (mapReportType rtype) = true →
      1 ≤ size → size < 65536 →
      ∀ first rest, data = first :: rest →
      s.handleMessage env
        = (Outcome.ret true,
            { fd := s.fd,
              log := s.log ++ [Call.sysRead s.fd (some (uhid_event.UHID_OUTPUT data size rtype)),
                Call.isNumberedReport (mapReportType rtype),
                Call.setReport (mapReportType rtype) first rest (size - 1)] })) := by
  have hrun := handleMessage_output env s data size rtype hrunning hread
  refine ⟨hrun, ?_, ?_, ?_, ?_, ?_, ?_⟩
  · rw [hrun]
  · rw [hrun]
  · rw [hrun]
    cases env.isNumberedReport
      (s.log ++ [Call.sysRead s.fd (some (uhid_event.UHID_OUTPUT data size rtype))])
      (mapReportType rtype)
    · exact ⟨0, data, size, by simp [newCalls]⟩
    · exact ⟨data.headD 0, data.drop 1, (size + 65535) % 65536, by simp [newCalls]⟩
  · rw [hrun]
    cases env.isNumberedReport
      (s.log ++ [Call.sysRead s.fd (some (uhid_event.UHID_OUTPUT data size rtype))])
      (mapReportType rtype) <;> simp [newCalls, Call.isSetReport]
  · intro hnum
    rw [hrun, hnum]
    simp
  · intro hnum hpos hsize first rest hdata
    have hlen : (size + 65535) % 65536 = size - 1 := by omega
    rw [hrun, hnum, hlen, hdata]
    simp

/-- Two OUTPUT events.  The scenario of the specification: for an unnumbered
Feature type the payload `01 02` gives `setReport(Feature, 0, [0x01, 0x02], 2)`.
For a numbered Output type the payload `03 AA AB` gives
`setReport(Output, 3, [0xAA, 0xAB], 2)`.  Each time `setReport` is called once and
`handleMessage` returns `true`. -/
theorem C7_output_deframing_witness :
    (UhidDriver.handleMessage
        (constEnv false (false, [], 0) true 3 (some (uhid_event.UHID_OUTPUT [1, 2] 2 0)) true)
        { fd := 3, log := [] }
      = (Outcome.ret true,
          { fd := 3,
            log := [] ++ [Call.sysRead 3 (some (uhid_event.UHID_OUTPUT [1, 2] 2 0)),
                    Call.isNumberedReport (mapReportType 0),
                    Call.setReport (mapReportType 0) 0 [1, 2] 2] })
      ∧ mapReportType 0 = ReportType.Feature)
    ∧ (UhidDriver.handleMessage
        (constEnv true (false, [], 0) true 3
          (some (uhid_event.UHID_OUTPUT [3, 170, 171] 3 1)) true)
        { fd := 3, log := [] }
      = (Outcome.ret true,
          { fd := 3,
            log := [] ++ [Call.sysRead 3 (some (uhid_event.UHID_OUTPUT [3, 170, 171] 3 1)),
                    Call.isNumberedReport (mapReportType 1),
                    Call.setReport (mapReportType 1) 3 [170, 171] (3 - 1)] })
      ∧ mapReportType 1 = ReportType.Output)
    ∧ (newCalls { fd := 3, log := [] }
        (UhidDriver.handleMessage
          (constEnv true (false, [], 0) true 3
            (some (uhid_event.UHID_OUTPUT [3, 170, 171] 3 1)) true)
          { fd := 3, log := [] }).2).countP Call.isSetReport = 1 :=
  ⟨⟨(C7_output_deframing
        (constEnv false (false, [], 0) true 3 (some (uhid_event.UHID_OUTPUT [1, 2] 2 0)) true)
        { fd := 3, log := [] } [1, 2] 2 0 (by decide) rfl).2.2.2.2.2.1 rfl,
     by decide⟩,
   ⟨(C7_output_deframing
        (constEnv true (false, [], 0) true 3
          (some (uhid_event.UHID_OUTPUT [3, 170, 171] 3 1)) true)
        { fd := 3, log := [] } [3, 170, 171] 3 1 (by decide) rfl).2.2.2.2.2.2 rfl
        (by decide) (by decide) 3 [170, 171] rfl,
     by decide⟩,
   (C7_output_deframing
      (constEnv true (false, [], 0) true 3
        (some (uhid_event.UHID_OUTPUT [3, 170, 171] 3 1)) true)
      { fd := 3, log := [] } [3, 170, 171] 3 1 (by decide) rfl).2.2.2.2.1⟩

/-- C7 as stated fails for an OUTPUT event with an empty payload (`size = 0`) on a
numbered type: the length handed to `setReport` is `size - 1` computed in sixteen
bits, which is 65535, not `size - 1`; here the array holds the stale bytes 7, 8. -/
theorem C7_counterexample :
    UhidDriver.handleMessage
        (constEnv true (false, [], 0) true 3 (some (uhid_event.UHID_OUTPUT [7, 8] 0 0)) true)
        { fd := 3, log := [] }
      = (Outcome.ret true,
          { fd := 3,
            log := [Call.sysRead 3 (some (uhid_event.UHID_OUTPUT [7, 8] 0 0)),
                    Call.isNumberedReport ReportType.Feature,
                    Call.setReport ReportType.Feature 7 [8] 65535] })
    ∧ (65535 : Int) ≠ 0 - 1 := by
  constructor
  · decide
  · decide

/-- C6 (as amended). For every OUTPUT, GET_REPORT or SET_REPORT event read by a
Running session whose wire report-type code is none of `UHID_INPUT_REPORT`,
`UHID_OUTPUT_REPORT`, `UHID_FEATURE_REPORT`, `mapReportType` gives
`ReportType::Invalid` and `handleMessage` hands `Invalid` to the device like any
other type: it calls `isNumberedReport(Invalid)` and then `setReport` (OUTPUT,
SET_REPORT) or `getReport` (GET_REPORT) with `Invalid`.  The OUTPUT event returns
`true`.  The GET_REPORT reply is the failure reply (`err = EIO`, size 0) when
`getReport` returns `false`; the SET_REPORT reply has `err = EIO` exactly when
`setReport` returns `false`.  The session is not closed unless a reply write is
short. -/
theorem C6_invalid_type_is_forwarded (env : Env) (s : UhidDriver) (rtype : Nat)
    (hrunning : 0 ≤ s.fd)
    (hinput : rtype ≠ UHID_INPUT_REPORT) (houtput : rtype ≠ UHID_OUTPUT_REPORT)
    (hfeature : rtype ≠ UHID_FEATURE_REPORT) :
    mapReportType rtype = ReportType.Invalid
    ∧ (∀ data size, env.sysRead s.log = some (uhid_event.UHID_OUTPUT data size rtype) →
        (s.handleMessage env).1 = Outcome.ret true
        ∧ (s.handleMessage env).2.fd = s.fd
        ∧ ∃ reportNum reportBuffer reportLength,
            newCalls s (s.handleMessage env).2
              = [Call.sysRead s.fd (some (uhid_event.UHID_OUTPUT data size rtype)),
                 Call.isNumberedReport ReportType.Invalid,
                 Call.setReport ReportType.Invalid reportNum reportBuffer reportLength])
    ∧ (∀ id reportNum,
        env.sysRead s.log = some (uhid_event.UHID_GET_REPORT id reportNum rtype) →
        (∃ after, newCalls s (s.handleMessage env).2
            = [Call.sysRead s.fd (some (uhid_event.UHID_GET_REPORT id reportNum rtype)),
               Call.isNumberedReport ReportType.Invalid,
               Call.getReport ReportType.Invalid reportNum] ++ after)
        ∧ ((env.getReport
              (s.log ++ [Call.sysRead s.fd (some (uhid_event.UHID_GET_REPORT id reportNum rtype)),
                Call.isNumberedReport ReportType.Invalid])
              ReportType.Invalid reportNum).1 = false →
            ∃ full after, newCalls s (s.handleMessage env).2
              = [Call.sysRead s.fd (some (uhid_event.UHID_GET_REPORT id reportNum rtype)),
                 Call.isNumberedReport ReportType.Invalid,
                 Call.getReport ReportType.Invalid reportNum,
                 Call.sysWrite s.fd (uhid_event.UHID_GET_REPORT_REPLY id EIO 0 []) full] ++ after)
        ∧ ((∀ c ∈ newCalls s (s.handleMessage env).2, c.isShortTransfer = false) →
            (s.handleMessage env).2.fd = s.fd))
    ∧ (∀ id reportNum size data,
        env.sysRead s.log = some (uhid_event.UHID_SET_REPORT id reportNum rtype size data) →
        (∃ err full after, newCalls s (s.handleMessage env).2
            = [Call.sysRead s.fd (some (uhid_event.UHID_SET_REPORT id reportNum rtype size data)),
               Call.isNumberedReport ReportType.Invalid,
               Call.setReport ReportType.Invalid reportNum data size,
               Call.sysWrite s.fd (uhid_event.UHID_SET_REPORT_REPLY id err) full] ++ after
            ∧ (err = EIO ↔
                env.setReport
                  (s.log ++ [Call.sysRead s.fd
                      (some (uhid_event.UHID_SET_REPORT id reportNum rtype size data)),
                    Call.isNumberedReport ReportType.Invalid])
                  ReportType.Invalid reportNum data size = false))
        ∧ ((∀ c ∈ newCalls s (s.handleMessage env).2, c.isShortTransfer = false) →
            (s.handleMessage env).2.fd = s.fd)) := by
  have hmap := mapReportType_invalid rtype hinput houtput hfeature
  refine ⟨hmap, ?_, ?_, ?_⟩
  · intro data size hread
    have hrun := handleMessage_output env s data size rtype hrunning hread
    rw [hmap] at hrun
    rw [hrun]
    refine ⟨rfl, rfl, ?_⟩
    cases env.isNumberedReport
      (s.log ++ [Call.sysRead s.fd (some (uhid_event.UHID_OUTPUT data size rtype))])
      ReportType.Invalid
    · exact ⟨0, data, size, by simp [newCalls]⟩
    · exact ⟨data.headD 0, data.drop 1, (size + 65535) % 65536, by simp [newCalls]⟩
  · intro id reportNum hread
    refine ⟨?_, ?_, fun hall => ((handleMessage_effect env s hrunning).2 hall).2⟩
    · rcases handleMessage_get_report env s id reportNum rtype hrunning hread with
        ⟨f, hrun⟩ | ⟨err, size, data, hrun⟩
      · rw [hmap] at hrun
        rw [hrun]
        exact ⟨[], by simp [newCalls]⟩
      · rw [hmap] at hrun
        rw [hrun, writeEvent_eq env _ _ _ hrunning]
        exact ⟨_, newCalls_writeEvent s [_, _, _] _ _ _ _⟩
    · intro hfail
      have hrun := handleMessage_get_report_fail env s id reportNum rtype hrunning hread
        (by rw [hmap]; exact hfail)
      rw [hmap] at hrun
      rw [hrun, writeEvent_eq env _ _ _ hrunning]
      exact ⟨_, _, newCalls_writeEvent s _ _ _ _ _⟩
  · intro id reportNum size data hread
    refine ⟨?_, fun hall => ((handleMessage_effect env s hrunning).2 hall).2⟩
    have hrun := handleMessage_set_report env s id reportNum rtype size data hrunning hread
    rw [hmap] at hrun
    rw [hrun, writeEvent_eq env _ _ _ hrunning]
    refine ⟨_, _, _, newCalls_writeEvent s _ _ _ _ _, ?_⟩
    cases env.setReport
      (s.log ++ [Call.sysRead s.fd (some (uhid_event.UHID_SET_REPORT id reportNum rtype size data)),
        Call.isNumberedReport ReportType.Invalid])
      ReportType.Invalid reportNum data size <;> simp [ EIO]

/-- A GET_REPORT event with the unknown type code 7: the code maps to `Invalid`,
and `Invalid` reaches `isNumberedReport` and `getReport`. -/
theorem C6_invalid_type_is_forwarded_witness :
    (0 : Int) ≤ 3
    ∧ mapReportType 7 = ReportType.Invalid
    ∧ ∃ after,
        newCalls { fd := 3, log := [] }
          (UhidDriver.handleMessage
            (constEnv false (true, [17, 18], 2) true 3
              (some (uhid_event.UHID_GET_REPORT 77 4 7)) true)
            { fd := 3, log := [] }).2
          = [Call.sysRead 3 (some (uhid_event.UHID_GET_REPORT 77 4 7)),
             Call.isNumberedReport ReportType.Invalid,
             Call.getReport ReportType.Invalid 4] ++ after :=
  ⟨by decide,
   (C6_invalid_type_is_forwarded
      (constEnv false (true, [17, 18], 2) true 3 (some (uhid_event.UHID_GET_REPORT 77 4 7)) true)
      { fd := 3, log := [] } 7 (by decide) (by decide) (by decide) (by decide)).1,
   ((C6_invalid_type_is_forwarded
      (constEnv false (true, [17, 18], 2) true 3 (some (uhid_event.UHID_GET_REPORT 77 4 7)) true)
      { fd := 3, log := [] } 7 (by decide) (by decide) (by decide) (by decide)).2.2.1
      77 4 rfl).1⟩

/-- C6 as stated fails for a GET_REPORT event with the unknown type code 7 on a
device that answers every request: `handleMessage` calls
`isNumberedReport(Invalid)` and `getReport(Invalid, 4)`, and the reply carries
`err = 0` and the payload, so the request is not failed. -/
theorem C6_counterexample :
    UhidDriver.handleMessage
        (constEnv false (true, [17, 18], 2) true 3 (some (uhid_event.UHID_GET_REPORT 77 4 7)) true)
        { fd := 3, log := [] }
      = (Outcome.ret true,
          { fd := 3,
            log := [Call.sysRead 3 (some (uhid_event.UHID_GET_REPORT 77 4 7)),
                    Call.isNumberedReport ReportType.Invalid,
                    Call.getReport ReportType.Invalid 4,
                    Call.sysWrite 3 (uhid_event.UHID_GET_REPORT_REPLY 77 0 2 [17, 18]) true] }) := by
  decide

/-- C8. For every starting state, if the kernel channel cannot be opened (the
result of `::open` is negative) or `open()` performs a short write (the write of
the `UHID_CREATE2` record, its only transfer), then `open()` returns `false` and
the session is Closed afterwards (`fd < 0`, `operator bool` false), and the
device methods it has called are exactly one `getDescriptor`. -/
theorem C8_open_setup_failure (env : Env) (s : UhidDriver)
    (hfail : env.sysOpen (s.log ++ [Call.getDescriptor]) < 0
      ∨ ∃ c ∈ newCalls s (s.open env).2, c.isShortTransfer = true) :
    (s.open env).1 = Outcome.ret false
    ∧ (s.open env).2.fd < 0
    ∧ (s.open env).2.operatorBool = false
    ∧ (newCalls s (s.open env).2).filter Call.isDevice = [Call.getDescriptor] := by
  have hclosed : ∀ after : UhidDriver, after.fd < 0 → after.operatorBool = false := by
    intro after h
    simp [UhidDriver.operatorBool, h]
  rcases open_cases env s with ⟨hfd, hrun⟩ | ⟨hfd, f, hrun⟩ | ⟨hfd, req, hrun⟩
  · rw [hrun]
    refine ⟨rfl, hfd, hclosed _ hfd, ?_⟩
    simp [newCalls, Call.isDevice]
  · exfalso
    rcases hfail with hneg | ⟨c, hc, hshort⟩
    · exact absurd hfd (not_le.mpr hneg)
    · rw [hrun] at hc
      simp only [newCalls_append, List.mem_cons, List.mem_singleton, List.not_mem_nil,
        or_false] at hc
      rcases hc with rfl | rfl <;> simp [Call.isShortTransfer] at hshort
  · rcases hfail with hneg | hshort
    · exact absurd hfd (not_le.mpr hneg)
    · have heff := writeEvent_effect env s (env.sysOpen (s.log ++ [Call.getDescriptor]))
        [Call.getDescriptor, Call.sysOpen (env.sysOpen (s.log ++ [Call.getDescriptor]))]
        (uhid_event.UHID_CREATE2 req) hfd
        (by
          intro c hc
          simp only [List.mem_cons, List.mem_singleton, List.not_mem_nil, or_false] at hc
          rcases hc with rfl | rfl <;> rfl)
      rw [hrun] at hshort
      have h := heff.1 hshort
      rw [hrun]
      have hneg : (UhidDriver.writeEvent env
          { fd := env.sysOpen (s.log ++ [Call.getDescriptor]),
            log := s.log ++ [Call.getDescriptor,
              Call.sysOpen (env.sysOpen (s.log ++ [Call.getDescriptor]))] }
          (uhid_event.UHID_CREATE2 req)).2.fd < 0 := by
        rw [h.2]
        decide
      refine ⟨h.1, hneg, hclosed _ hneg, ?_⟩
      rw [writeEvent_eq env _ _ _ hfd]
      split <;> simp [newCalls, Call.isDevice]

/-- Both setup failures on a fresh driver: the channel cannot be opened, and the
creation record is written short. -/
theorem C8_open_setup_failure_witness :
    (UhidDriver.open (constEnv true (false, [], 0) true (-1) none true)
        { fd := -1, log := [] }
      = (Outcome.ret false, { fd := -1, log := [Call.getDescriptor, Call.sysOpen (-1)] })
      ∧ (UhidDriver.open (constEnv true (false, [], 0) true (-1) none true)
          { fd := -1, log := [] }).1 = Outcome.ret false)
    ∧ ((UhidDriver.open (constEnv true (false, [], 0) true 3 none false)
          { fd := -1, log := [] }).1 = Outcome.ret false
      ∧ (UhidDriver.open (constEnv true (false, [], 0) true 3 none false)
          { fd := -1, log := [] }).2.fd < 0) :=
  ⟨⟨by decide,
    (C8_open_setup_failure (constEnv true (false, [], 0) true (-1) none true)
      { fd := -1, log := [] } (Or.inl (by decide))).1⟩,
   (C8_open_setup_failure (constEnv true (false, [], 0) true 3 none false)
      { fd := -1, log := [] }
      (Or.inr ⟨Call.sysWrite 3
        (uhid_event.UHID_CREATE2
          { name := "UHID Device", phys := "", uniq := "", rd_size := 4, bus := 0, vendor := 0,
            product := 0, version := 0, country := 0, rd_data := [5, 1, 9, 6] }) false,
        by decide, rfl⟩)).1,
   (C8_open_setup_failure (constEnv true (false, [], 0) true 3 none false)
      { fd := -1, log := [] }
      (Or.inr ⟨Call.sysWrite 3
        (uhid_event.UHID_CREATE2
          { name := "UHID Device", phys := "", uniq := "", rd_size := 4, bus := 0, vendor := 0,
            product := 0, version := 0, country := 0, rd_data := [5, 1, 9, 6] }) false,
        by decide, rfl⟩)).2.1⟩

/-- C2 (as amended). For every `reportNum` and body such that the framed payload
fits the `data` array of a record (`reportSize + 1 ≤ UHID_DATA_MAX`): a Running
`sendInputReport` on a numbered Input type writes the payload with size
`reportSize + 1`, first byte `reportNum` and the body after it; and a Running
`handleMessage` that reads an OUTPUT event carrying that same payload and size
for a numbered type hands `setReport` exactly the original `reportNum`, the
original body and the original length. -/
theorem C2_framing_round_trip (env : Env) (s : UhidDriver) (reportNum : Nat)
    (reportBuffer : List Nat) (reportSize : Nat)
    (env2 : Env) (s2 : UhidDriver) (rtype : Nat)
    (hrunning : 0 ≤ s.fd)
    (hnumbered : env.isNumberedReport s.log ReportType.Input = true)
    (hbuffer : reportSize ≤ reportBuffer.length)
    (hfits : reportSize + 1 ≤ UHID_DATA_MAX)
    (hrunning2 : 0 ≤ s2.fd)
    (hread2 : env2.sysRead s2.log
      = some (uhid_event.UHID_OUTPUT (reportNum :: reportBuffer.take reportSize)
          (reportSize + 1) rtype))
    (hnumbered2 : env2.isNumberedReport
        (s2.log ++ [Call.sysRead s2.fd
          (some (uhid_event.UHID_OUTPUT (reportNum :: reportBuffer.take reportSize)
            (reportSize + 1) rtype))])
        (mapReportType rtype) = true) :
    (∃ full after, newCalls s (s.sendInputReport env reportNum reportBuffer reportSize).2
        = [Call.isNumberedReport ReportType.Input,
           Call.sysWrite s.fd
             (uhid_event.UHID_INPUT2 (reportSize + 1) (reportNum :: reportBuffer.take reportSize))
             full] ++ after)
    ∧ s2.handleMessage env2
      = (Outcome.ret true,
          { fd := s2.fd,
            log := s2.log ++ [Call.sysRead s2.fd
                (some (uhid_event.UHID_OUTPUT (reportNum :: reportBuffer.take reportSize)
                  (reportSize + 1) rtype)),
              Call.isNumberedReport (mapReportType rtype),
              Call.setReport (mapReportType rtype) reportNum (reportBuffer.take reportSize)
                reportSize] }) := by
  have hnot : ¬ s.fd < 0 := not_lt.mpr hrunning
  have hmax : UHID_DATA_MAX = 4096 := rfl
  constructor
  · have hf : 1 + reportSize ≤ UHID_DATA_MAX := by omega
    have hmod : (reportSize + 1) % 65536 = reportSize + 1 := by
      apply Nat.mod_eq_of_lt
      omega
    have hrun : s.sendInputReport env reportNum reportBuffer reportSize
        = UhidDriver.writeEvent env
            { fd := s.fd, log := s.log ++ [Call.isNumberedReport ReportType.Input] }
            (uhid_event.UHID_INPUT2 (reportSize + 1)
              (reportNum :: reportBuffer.take reportSize)) := by
      simp only [UhidDriver.sendInputReport, hnot, if_false, hnumbered, if_true,
        memcpy_fits _ _ _ _ hf hbuffer, hmod, UhidDriver.record]
    rw [hrun, writeEvent_eq env _ _ _ hrunning]
    exact ⟨_, _, newCalls_writeEvent s _ _ _ _ _⟩
  · have hlen : (reportSize + 1 + 65535) % 65536 = reportSize := by omega
    rw [handleMessage_output env2 s2 _ _ rtype hrunning2 hread2, hnumbered2, hlen]
    simp

theorem C2_framing_round_trip_witness :
    (∃ full after,
      newCalls { fd := 3, log := [] }
        (UhidDriver.sendInputReport (constEnv true (false, [], 0) true 3 none true)
          { fd := 3, log := [] } 3 [170, 171, 172] 2).2
        = [Call.isNumberedReport ReportType.Input,
           Call.sysWrite 3 (uhid_event.UHID_INPUT2 (2 + 1) (3 :: List.take 2 [170, 171, 172]))
             full] ++ after)
    ∧ UhidDriver.handleMessage
        (constEnv true (false, [], 0) true 4
          (some (uhid_event.UHID_OUTPUT (3 :: List.take 2 [170, 171, 172]) (2 + 1) 1)) true)
        { fd := 4, log := [] }
      = (Outcome.ret true,
          { fd := 4,
            log := [] ++ [Call.sysRead 4
                (some (uhid_event.UHID_OUTPUT (3 :: List.take 2 [170, 171, 172]) (2 + 1) 1)),
              Call.isNumberedReport (mapReportType 1),
              Call.setReport (mapReportType 1) 3 (List.take 2 [170, 171, 172]) 2] }) :=
  C2_framing_round_trip (constEnv true (false, [], 0) true 3 none true)
    { fd := 3, log := [] } 3 [170, 171, 172] 2
    (constEnv true (false, [], 0) true 4
      (some (uhid_event.UHID_OUTPUT (3 :: List.take 2 [170, 171, 172]) (2 + 1) 1)) true)
    { fd := 4, log := [] } 1
    (by decide) rfl (by decide) (by decide) (by decide) rfl rfl

/-- C2 as stated fails for a body of 4096 bytes: the framed payload would have
4097 bytes, the copy of the body leaves the `data` array of the record, and
`sendInputReport` produces no payload to deframe. -/
theorem C2_counterexample :
    UhidDriver.sendInputReport (constEnv true (false, [], 0) true 3 none true)
        { fd := 3, log := [] } 3 (List.replicate 4096 170) 4096
      = (Outcome.undef Fault.bufferOverrun,
          { fd := 3, log := [Call.isNumberedReport ReportType.Input] }) := by
  simp [UhidDriver.sendInputReport, constEnv, UhidDriver.record, memcpy, UHID_DATA_MAX]

end hiddev
